import Mathlib

/-!
Verification of the combined-listing dual variant picker
(`assets/variant-picker-cl.js`, classes `VariantPickerCL` and
`VariantPickerCLDual`) of the Shopify theme.

The JavaScript is embedded shallowly:

* JS strings are Lean `String`s; `String.prototype.trim` and
  `String.prototype.toLowerCase` are modelled on the character list
  (`jsTrim`, `jsToLower`; whitespace and case mapping are modelled at the
  ASCII level, which covers all data handled by the picker).
* `String.prototype.split(sep)` with a non-empty separator is modelled by
  `jsSplit`: leftmost-match, non-overlapping splitting, keeping empty parts,
  exactly as in JS.
* `[...new Set(xs)]` is `jsSetList`: first-occurrence deduplication in
  insertion order.
* JS truthiness of a `string | undefined` value is `truthy : Option String →
  Bool` (undefined and the empty string are falsy).
* The mutable per-instance fields of `VariantPickerCLDual` and the DOM pieces
  the claims inspect are collected in a `World` record; methods become
  `World → World` functions.  Everything observable the methods do (event
  dispatches, fetch starts, morphs, history writes, pill-animation updates)
  is also appended to an `effects` log so that temporal claims can speak
  about ordering.
* `fetch` + `AbortController` are modelled by numbering each controller.
  `deliverResponse` plays the role of the environment resolving the promise
  chain of one fetch; per the fetch/AbortController contract, a fetch whose
  controller was aborted settles with an `AbortError`, which the source's
  `catch` handler swallows without touching anything.
-/

/-- Model of JS `String.prototype.trim` on the character list: drop leading
whitespace, then drop trailing whitespace. -/
def jsTrimChars (l : List Char) : List Char :=
  ((l.dropWhile Char.isWhitespace).reverse.dropWhile Char.isWhitespace).reverse

/-- Model of JS `String.prototype.trim`. -/
def jsTrim (s : String) : String :=
  ⟨jsTrimChars s.data⟩

/-- Model of JS `String.prototype.toLowerCase` (ASCII case mapping). -/
def jsToLower (s : String) : String :=
  ⟨s.data.map Char.toLower⟩

/-- Truthiness of a JS `string | undefined` value: `undefined` and `""` are
falsy, every other string is truthy. -/
def truthy : Option String → Bool
  | none => false
  | some s => s != ""

/-- Fuelled worker for `jsSplit`.  The fuel is the length of the remaining
input, so the fuel never runs out; it only makes the recursion structural. -/
def jsSplitAux (sep : List Char) : Nat → List Char → List Char → List (List Char)
  | 0, acc, l => [acc.reverse ++ l]
  | _ + 1, acc, [] => [acc.reverse]
  | fuel + 1, acc, c :: rest =>
    if sep.isPrefixOf (c :: rest) then
      acc.reverse :: jsSplitAux sep fuel [] (List.drop sep.length (c :: rest))
    else
      jsSplitAux sep fuel (c :: acc) rest

/-- Model of JS `s.split(sep)` for a non-empty separator: split at each
leftmost occurrence of `sep`, non-overlapping, keeping empty parts
(`"".split(x) = [""]`, trailing separators produce a trailing `""`). -/
def jsSplit (sep s : String) : List String :=
  (jsSplitAux sep.data s.data.length [] s.data).map fun l => ⟨l⟩

/-- Model of `s.split('?')[0]` (a split of a string on `'?'` always has a
first element). -/
def jsSplitQ (s : String) : String :=
  (jsSplit "?" s).headD ""

/-- Worker for `jsSetList`, threading the accumulated first occurrences. -/
def jsSetFold (acc : List String) : List String → List String
  | [] => acc
  | x :: xs => jsSetFold (if x ∈ acc then acc else acc ++ [x]) xs

/-- Model of JS `[...new Set(xs)]`: keep the first occurrence of each
element, in insertion order. -/
def jsSetList (l : List String) : List String :=
  jsSetFold [] l

/-- One parsed entry of the combinations data
(`VariantPickerCLDual.#combinations` element): fields in the order
`productId|variantId|colorValue|sizeValue|productUrl|available|isCurrent`. -/
structure Combination where
  productId : String
  variantId : String
  color : String
  size : String
  productUrl : String
  available : Bool
  isCurrent : Bool
deriving DecidableEq, Repr

/-- The body of the `entries.map` callback in
`VariantPickerCLDual.#parseCombinations`: split one entry on `'|'`; with at
least 7 fields build the combination object (the boolean fields compare the
raw field against the string `"true"`), otherwise yield `null` (`none`). -/
def parseEntry (entry : String) : Option Combination :=
  let parts := jsSplit "|" entry
  if 7 ≤ parts.length then
    some
      { productId := parts.getD 0 ""
        variantId := parts.getD 1 ""
        color := parts.getD 2 ""
        size := parts.getD 3 ""
        productUrl := parts.getD 4 ""
        available := parts.getD 5 "" == "true"
        isCurrent := parts.getD 6 "" == "true" }
  else none

/-- `VariantPickerCLDual.#parseCombinations`: falsy input gives `[]`;
otherwise split the data string on the entry separator `"|||"`, map each
entry to an object or `null`, and keep the non-null results in order. -/
def parseCombinations (dataString : String) : List Combination :=
  if dataString == "" then []
  else ((jsSplit "|||" dataString).map parseEntry).filterMap id

/-- Combination built from an entry's first seven fields, written from the
spec's description of the format (used to characterise `parseCombinations`;
`available`/`isCurrent` are true exactly when the field is `"true"`). -/
def comboOfEntry (entry : String) : Combination :=
  let parts := jsSplit "|" entry
  { productId := parts.getD 0 ""
    variantId := parts.getD 1 ""
    color := parts.getD 2 ""
    size := parts.getD 3 ""
    productUrl := parts.getD 4 ""
    available := parts.getD 5 "" == "true"
    isCurrent := parts.getD 6 "" == "true" }

/-- `VariantPickerCLDual.#getAvailableColors`: with no (truthy) selected size
all colors occur, deduplicated after trimming; with a selected size only the
colors of combinations whose size trims to the selected size. -/
def getAvailableColors (cs : List Combination) (selectedSize : Option String) : List String :=
  if truthy selectedSize then
    jsSetList
      ((((cs.filter fun c => c.size != "" && (jsTrim c.size == jsTrim (selectedSize.getD ""))).map
        fun c => c.color).filter fun v => v != "").map jsTrim)
  else
    jsSetList (((cs.map fun c => c.color).filter fun v => v != "").map jsTrim)

/-- `VariantPickerCLDual.#getAvailableSizes`: symmetric to
`getAvailableColors`, constrained by the selected color. -/
def getAvailableSizes (cs : List Combination) (selectedColor : Option String) : List String :=
  if truthy selectedColor then
    jsSetList
      ((((cs.filter fun c => c.color != "" && (jsTrim c.color == jsTrim (selectedColor.getD ""))).map
        fun c => c.size).filter fun v => v != "").map jsTrim)
  else
    jsSetList (((cs.map fun c => c.size).filter fun v => v != "").map jsTrim)

/-- The combination lookup of `VariantPickerCLDual.#handleSelectionChange`
(source lines 471–477): both sides trimmed and lowercased. -/
def findMatchingCombinationLower (cs : List Combination) (selectedColor selectedSize : String) :
    Option Combination :=
  cs.find? fun c =>
    (jsToLower (jsTrim c.color) == jsToLower (jsTrim selectedColor)) &&
    (jsToLower (jsTrim c.size) == jsToLower (jsTrim selectedSize))

/-- The combination lookup of `VariantPickerCLDual.#navigateToMatchingProduct`
(source lines 743–748): combination fields must be truthy and both sides are
trimmed, but the comparison is case-sensitive. -/
def findMatchingCombinationTrim (cs : List Combination) (selectedColor selectedSize : String) :
    Option Combination :=
  cs.find? fun c =>
    c.color != "" && (jsTrim c.color == jsTrim selectedColor) &&
    (c.size != "" && (jsTrim c.size == jsTrim selectedSize))

/-- C1: for the combination set parsed from the three given entries, the
available-colors query with no size constraint returns exactly Red and Blue;
the available-sizes query for color Red returns exactly S and M; finding
(Blue, S) returns the P2/V2 combination (on both lookup paths); and finding
(Blue, M) returns none (on both lookup paths). -/
theorem c1_combination_queries :
    parseCombinations
        "P1|V1|Red|S|u1|true|true|||P2|V2|Blue|S|u2|true|false|||P3|V3|Red|M|u3|false|false" =
      [⟨"P1", "V1", "Red", "S", "u1", true, true⟩,
       ⟨"P2", "V2", "Blue", "S", "u2", true, false⟩,
       ⟨"P3", "V3", "Red", "M", "u3", false, false⟩] ∧
    getAvailableColors
        [⟨"P1", "V1", "Red", "S", "u1", true, true⟩,
         ⟨"P2", "V2", "Blue", "S", "u2", true, false⟩,
         ⟨"P3", "V3", "Red", "M", "u3", false, false⟩] none = ["Red", "Blue"] ∧
    getAvailableSizes
        [⟨"P1", "V1", "Red", "S", "u1", true, true⟩,
         ⟨"P2", "V2", "Blue", "S", "u2", true, false⟩,
         ⟨"P3", "V3", "Red", "M", "u3", false, false⟩] (some "Red") = ["S", "M"] ∧
    findMatchingCombinationTrim
        [⟨"P1", "V1", "Red", "S", "u1", true, true⟩,
         ⟨"P2", "V2", "Blue", "S", "u2", true, false⟩,
         ⟨"P3", "V3", "Red", "M", "u3", false, false⟩] "Blue" "S" =
      some ⟨"P2", "V2", "Blue", "S", "u2", true, false⟩ ∧
    findMatchingCombinationLower
        [⟨"P1", "V1", "Red", "S", "u1", true, true⟩,
         ⟨"P2", "V2", "Blue", "S", "u2", true, false⟩,
         ⟨"P3", "V3", "Red", "M", "u3", false, false⟩] "Blue" "S" =
      some ⟨"P2", "V2", "Blue", "S", "u2", true, false⟩ ∧
    findMatchingCombinationTrim
        [⟨"P1", "V1", "Red", "S", "u1", true, true⟩,
         ⟨"P2", "V2", "Blue", "S", "u2", true, false⟩,
         ⟨"P3", "V3", "Red", "M", "u3", false, false⟩] "Blue" "M" = none ∧
    findMatchingCombinationLower
        [⟨"P1", "V1", "Red", "S", "u1", true, true⟩,
         ⟨"P2", "V2", "Blue", "S", "u2", true, false⟩,
         ⟨"P3", "V3", "Red", "M", "u3", false, false⟩] "Blue" "M" = none := by
  decide

/-- C2: parsing the delimited combinations data is total (the Lean function
is total, so no exception is possible), drops exactly the entries with fewer
than 7 fields, and yields, in input order, one combination per remaining
entry, whose `available`/`isCurrent` are true exactly when the corresponding
field is the string `"true"` (partial success, never all-or-nothing). -/
theorem c2_parse_partial_success :
    ∀ s : String,
      (parseCombinations s =
        if s == "" then []
        else
          ((jsSplit "|||" s).filter fun e => decide (7 ≤ (jsSplit "|" e).length)).map
            comboOfEntry) ∧
      ∀ e : String,
        (comboOfEntry e).available = ((jsSplit "|" e).getD 5 "" == "true") ∧
        (comboOfEntry e).isCurrent = ((jsSplit "|" e).getD 6 "" == "true") := by
  intro s
  refine ⟨?_, fun e => ⟨rfl, rfl⟩⟩
  by_cases hs : s == ""
  · simp [parseCombinations, hs]
  · simp only [parseCombinations, hs, if_false, Bool.false_eq_true]
    induction jsSplit "|||" s with
    | nil => rfl
    | cons e es ih =>
      by_cases he : 7 ≤ (jsSplit "|" e).length
      · simp [parseEntry, comboOfEntry, he, ih]
      · simp [parseEntry, comboOfEntry, he, ih]

/-- One color or size radio input together with the attributes
`#updateFiltering` writes on it and on its wrapping label.  The label's
`data-option-available` always mirrors the input's, so one field models
both; `dataDisabled` models the label's `data-disabled` attribute. -/
structure OptionInput where
  value : String
  checked : Bool
  disabled : Bool
  dataOptionAvailable : Bool
  ariaDisabled : Bool
  dataDisabled : Bool
deriving DecidableEq, Repr

/-- The color half of `VariantPickerCLDual.#updateFiltering` (source lines
589–634), as a pure function on the list of color inputs. -/
def applyColorFiltering (cs : List Combination) (selectedColor selectedSize : Option String)
    (inputs : List OptionInput) : List OptionInput :=
  let availableColors := getAvailableColors cs selectedSize
  inputs.map fun inp =>
    let colorValue := jsTrim inp.value
    let isAvailable := availableColors.any fun c => jsTrim c == colorValue
    let isSelected := truthy selectedColor && (jsTrim (selectedColor.getD "") == colorValue)
    let hasSelectedSize :=
      if truthy selectedSize then
        cs.any fun c =>
          c.color != "" && (jsTrim c.color == colorValue) &&
          (c.size != "" && (jsTrim c.size == jsTrim (selectedSize.getD "")))
      else true
    let colorIsAvailable := isAvailable && hasSelectedSize
    { inp with
      dataOptionAvailable := colorIsAvailable
      ariaDisabled := !colorIsAvailable
      dataDisabled := !colorIsAvailable && !isSelected
      disabled := !colorIsAvailable && !isSelected }

/-- The size half of `VariantPickerCLDual.#updateFiltering` (source lines
636–674).  The displayed availability mark uses `hasAvailableCombination`
(which also checks the `available` flag), while the disable decision uses
membership in `#getAvailableSizes`. -/
def applySizeFiltering (cs : List Combination) (selectedColor selectedSize : Option String)
    (inputs : List OptionInput) : List OptionInput :=
  let availableSizes := getAvailableSizes cs selectedColor
  inputs.map fun inp =>
    let sizeValue := jsTrim inp.value
    let isAvailable := availableSizes.any fun v => jsTrim v == sizeValue
    let isSelected := truthy selectedSize && (jsTrim (selectedSize.getD "") == sizeValue)
    let hasAvailableCombination :=
      cs.any fun c =>
        c.size != "" && (jsTrim c.size == sizeValue) && c.available &&
        (!truthy selectedColor ||
          (c.color != "" && (jsTrim c.color == jsTrim (selectedColor.getD ""))))
    { inp with
      dataOptionAvailable := hasAvailableCombination
      ariaDisabled := !hasAvailableCombination
      dataDisabled := !isAvailable && !isSelected
      disabled := !isAvailable && !isSelected }

/-- Observable actions of the picker, logged in order.  `pillUpdate` stands
for `#updateSelectedOption`'s pill-animation bookkeeping (dataset flags and
CSS custom properties, whose values depend on layout and which no verified
property inspects); `fetchStart` records the issue of a network request with
the numbered abort controller guarding it. -/
inductive Effect where
  | dispatchSelected (variantId : String)
  | pillUpdate (value : String)
  | filterUpdate
  | fetchStart (ctrl : Nat) (url : String)
  | historyReplace (href : String)
  | morphMain
  | dispatchUpdated (variantId : String)
deriving DecidableEq, Repr

/-- One in-flight fetch: the abort controller guarding it and the arguments
captured by the `then` continuations of `#fetchAndMorphProduct`. -/
structure PendingReq where
  ctrl : Nat
  url : String
  isDifferentProduct : Bool
  variantId : String
deriving DecidableEq, Repr

/-- Outcome of a settled fetch as seen by the promise chain: a network-level
failure, or a response body that does or does not contain a `<main>`
element. -/
inductive FetchResult where
  | networkError
  | success (hasMain : Bool)
deriving DecidableEq, Repr

/-- State of one `VariantPickerCLDual` instance plus the browser pieces it
touches: its private fields, the option inputs of its two dimensions, the
window location, the numbered abort controllers, the outstanding fetches and
the ordered log of observable actions. -/
structure World where
  combinations : List Combination
  selectedColor : Option String
  selectedSize : Option String
  currentProductUrl : Option String
  colorInputs : List OptionInput
  sizeInputs : List OptionInput
  origin : String
  locationHref : String
  nextCtrl : Nat
  activeCtrl : Option Nat
  abortedCtrls : List Nat
  pending : List PendingReq
  effects : List Effect
deriving DecidableEq, Repr

/-- `this.#abortController?.abort()`: mark the active controller aborted. -/
def abortCurrent (w : World) : World :=
  match w.activeCtrl with
  | some c => { w with abortedCtrls := w.abortedCtrls ++ [c], activeCtrl := none }
  | none => w

/-- `VariantPickerCLDual.#fetchAndMorphProduct` up to issuing the request
(source lines 777–782): abort any pending request, allocate a fresh
controller and start the fetch guarded by it.  The response is processed
later by `deliverResponse`. -/
def fetchAndMorphProduct (w : World) (productUrl : String) (isDifferentProduct : Bool)
    (variantId : String) : World :=
  let w0 := abortCurrent w
  { w0 with
    activeCtrl := some w0.nextCtrl
    nextCtrl := w0.nextCtrl + 1
    pending := w0.pending ++ [⟨w0.nextCtrl, productUrl, isDifferentProduct, variantId⟩]
    effects := w0.effects ++ [.fetchStart w0.nextCtrl productUrl] }

/-- The environment settles the fetch guarded by controller `ctrl` (source
lines 783–867).  Per the fetch/AbortController contract an aborted request
settles with `AbortError`, which the `catch` handler swallows (no morph, no
event); a genuine network failure is likewise swallowed; a response without
a `<main>` element throws and is caught the same way.  On success the main
content is morphed, `#currentProductUrl` is updated and the Updated event is
dispatched.  (The JSON variant payload, the `newProduct` computation for the
event detail and the scheduled post-morph reinitialisation only feed the
event's payload and a later rebuild from the fetched document; no verified
property inspects them.) -/
def deliverResponse (w : World) (ctrl : Nat) (r : FetchResult) : World :=
  match w.pending.find? fun p => p.ctrl == ctrl with
  | none => w
  | some p =>
    let w1 := { w with pending := w.pending.filter fun q => !(q.ctrl == ctrl) }
    if w1.abortedCtrls.contains ctrl then w1
    else
      match r with
      | .networkError => w1
      | .success hasMain =>
        if hasMain then
          { w1 with
            effects := w1.effects ++ [.morphMain, .dispatchUpdated p.variantId]
            currentProductUrl := some (jsSplitQ p.url) }
        else w1

/-- `VariantPickerCLDual.#navigateToMatchingProduct` (source lines 740–769):
give up unless both dimensions are truthy, look the pair up with the trimmed
case-sensitive comparison, fetch the matching product, and then schedule the
`history.replaceState` whenever the resolved absolute URL differs from the
current location — unconditionally on the fetch's eventual outcome.
(`new URL(u, origin).href` is modelled as `origin ++ u` for the
root-relative URLs the theme renders; `requestYieldCallback` only defers the
write within the current frame, so it is recorded at navigation time.) -/
def navigateToMatchingProduct (w : World) : World :=
  if truthy w.selectedColor && truthy w.selectedSize then
    match
      findMatchingCombinationTrim w.combinations (w.selectedColor.getD "")
        (w.selectedSize.getD "") with
    | none => w
    | some mc =>
      let productUrl := mc.productUrl ++ "?variant=" ++ mc.variantId
      let w1 := fetchAndMorphProduct w productUrl
        (w.currentProductUrl != some mc.productUrl) mc.variantId
      let href := w1.origin ++ productUrl
      if href != w1.locationHref then
        { w1 with locationHref := href, effects := w1.effects ++ [.historyReplace href] }
      else w1
  else w

/-- Set `checked` on the first input whose `value` attribute equals `v`
(`querySelector('input[value=...]')` + `.checked = true`); the browser's
radio-group semantics uncheck the rest of the group. -/
def checkInputByValue (inputs : List OptionInput) (v : String) : List OptionInput :=
  if inputs.any fun i => i.value == v then
    inputs.map fun i => { i with checked := i.value == v }
  else inputs

/-- `VariantPickerCLDual.#updateSelectedOption` applied to the changed radio:
pill-animation bookkeeping plus `target.checked = true`. -/
def updateSelectedOptionW (w : World) (optionType v : String) : World :=
  let w1 := { w with effects := w.effects ++ [.pillUpdate v] }
  if optionType == "color" then { w1 with colorInputs := checkInputByValue w1.colorInputs v }
  else if optionType == "size" then { w1 with sizeInputs := checkInputByValue w1.sizeInputs v }
  else w1

/-- `VariantPickerCLDual.#updateFiltering` on the world: rewrite the
availability/disable attributes of both dimensions' inputs. -/
def updateFilteringW (w : World) : World :=
  { w with
    colorInputs := applyColorFiltering w.combinations w.selectedColor w.selectedSize w.colorInputs
    sizeInputs := applySizeFiltering w.combinations w.selectedColor w.selectedSize w.sizeInputs
    effects := w.effects ++ [.filterUpdate] }

/-- The selection-field update at the top of
`VariantPickerCLDual.#handleSelectionChange` (source lines 458–465). -/
def applySelection (w : World) (optionType v : String) : World :=
  if optionType == "color" then { w with selectedColor := some v }
  else if optionType == "size" then { w with selectedSize := some v }
  else w

/-- `VariantPickerCLDual.#handleSelectionChange` for a radio pick carrying
`data-option-type` `optionType` and value `v` (source lines 454–514).  When
both dimensions are truthy and the lowercased lookup finds a combination:
dispatch the Selected event first, then (deferred to the next frame) pill
update, filtering and navigation.  Otherwise only pill update and
filtering run. -/
def handleSelectionChange (w : World) (optionType v : String) : World :=
  let w1 := applySelection w optionType v
  if truthy w1.selectedColor && truthy w1.selectedSize then
    match
      findMatchingCombinationLower w1.combinations (w1.selectedColor.getD "")
        (w1.selectedSize.getD "") with
    | some mc =>
      let w2 := { w1 with effects := w1.effects ++ [.dispatchSelected mc.variantId] }
      let w3 := updateSelectedOptionW w2 optionType v
      let w4 := updateFilteringW w3
      navigateToMatchingProduct w4
    | none => updateFilteringW (updateSelectedOptionW w1 optionType v)
  else updateFilteringW (updateSelectedOptionW w1 optionType v)

/-- `VariantPickerCL.#handleProductSelection` (source lines 34–74) for a
radio pick carrying `data-product-url` `productUrl` and value `variantId`:
bail out on a falsy product URL, otherwise dispatch the Selected event
first, then (next frame) fetch-and-morph, and update the history when the
resolved URL differs. -/
def handleProductSelection (w : World) (productUrl variantId : String) : World :=
  if productUrl == "" then w
  else
    let w1 := { w with effects := w.effects ++ [.dispatchSelected variantId] }
    let w2 := fetchAndMorphProduct w1 productUrl
      (w1.currentProductUrl != some (jsSplitQ productUrl)) variantId
    let href := w2.origin ++ productUrl
    if href != w2.locationHref then
      { w2 with locationHref := href, effects := w2.effects ++ [.historyReplace href] }
    else w2

/-- The resolution context of `#handleSelectionChange`: the combination the
current selection pair resolves to, if both dimensions are truthy. -/
def resolvedCombination (w : World) : Option Combination :=
  if truthy w.selectedColor && truthy w.selectedSize then
    findMatchingCombinationLower w.combinations (w.selectedColor.getD "") (w.selectedSize.getD "")
  else none

/-- `VariantPickerCLDual.#syncFromUrl` (source lines 357–413), parametrised
by the current URL's `variant` query parameter (`none` when absent).  A
falsy parameter or no (truthy, trimmed) variant-id match returns without
touching anything; otherwise `#currentProductUrl`, the selections, the
checked inputs and the filtering are updated. -/
def syncFromUrl (w : World) (variantParam : Option String) : World :=
  match variantParam with
  | none => w
  | some vp =>
    if vp == "" then w
    else
      match w.combinations.find? fun c => c.variantId != "" && (jsTrim c.variantId == jsTrim vp) with
      | none => w
      | some mc =>
        let npu := jsSplitQ mc.productUrl
        let w1 :=
          if npu != "" && (w.currentProductUrl != some npu) then
            { w with currentProductUrl := some npu }
          else w
        let newColor := jsTrim mc.color
        let newSize := jsTrim mc.size
        let colorChanged := newColor != "" && (w1.selectedColor != some newColor)
        let w2 :=
          if colorChanged then
            let wa := { w1 with selectedColor := some newColor }
            if wa.colorInputs.any fun i => i.value == newColor then
              { wa with
                colorInputs := checkInputByValue wa.colorInputs newColor
                effects := wa.effects ++ [.pillUpdate newColor] }
            else wa
          else w1
        let sizeChanged := newSize != "" && (w2.selectedSize != some newSize)
        let w3 :=
          if sizeChanged then
            let wb := { w2 with selectedSize := some newSize }
            if wb.sizeInputs.any fun i => i.value == newSize then
              { wb with
                sizeInputs := checkInputByValue wb.sizeInputs newSize
                effects := wb.effects ++ [.pillUpdate newSize] }
            else wb
          else w2
        if colorChanged || sizeChanged then updateFilteringW w3 else w3

/-- Does the effect log start with a Selected dispatch? -/
def startsWithSelectedDispatch : List Effect → Bool
  | .dispatchSelected _ :: _ => true
  | _ => false

/-! Helper lemmas about the string primitives. -/

/-- `jsTrimChars` in terms of Mathlib's `rdropWhile`. -/
theorem jsTrimChars_eq_rdropWhile (l : List Char) :
    jsTrimChars l = List.rdropWhile Char.isWhitespace (l.dropWhile Char.isWhitespace) := rfl

/-- Trimming is idempotent on character lists. -/
theorem jsTrimChars_idem (l : List Char) : jsTrimChars (jsTrimChars l) = jsTrimChars l := by
  rw [jsTrimChars_eq_rdropWhile, jsTrimChars_eq_rdropWhile]
  set p := Char.isWhitespace with hp
  set m := l.dropWhile p with hm
  have hr_pre : (List.rdropWhile p m) <+: m := by apply List.rdropWhile_prefix
  have hr_drop : (List.rdropWhile p m).dropWhile p = List.rdropWhile p m := by
    rw [List.dropWhile_eq_self_iff]
    intro hl
    have hm0 : m.dropWhile p = m := by apply List.dropWhile_idempotent
    rw [List.dropWhile_eq_self_iff] at hm0
    rw [hr_pre.get_eq hl]
    exact hm0 _
  rw [hr_drop]
  apply List.rdropWhile_idempotent

/-- Trimming is idempotent. -/
theorem jsTrim_idem (s : String) : jsTrim (jsTrim s) = jsTrim s := by
  unfold jsTrim
  exact congrArg String.mk (jsTrimChars_idem s.data)

/-- Membership in the JS-Set fold. -/
theorem mem_jsSetFold (a : String) (l : List String) :
    ∀ acc : List String, (a ∈ jsSetFold acc l ↔ a ∈ acc ∨ a ∈ l) := by
  induction l with
  | nil => intro acc; simp [jsSetFold]
  | cons x xs ih =>
    intro acc
    rw [jsSetFold, ih]
    by_cases hx : x ∈ acc
    · simp only [if_pos hx, List.mem_cons]
      constructor
      · rintro (h | h)
        · exact Or.inl h
        · exact Or.inr (Or.inr h)
      · rintro (h | h | h)
        · exact Or.inl h
        · exact Or.inl (h ▸ hx)
        · exact Or.inr h
    · simp only [if_neg hx, List.mem_append, List.mem_singleton, List.mem_cons]
      tauto

/-- Membership in the JS-Set deduplication is membership in the input. -/
theorem mem_jsSetList (a : String) (l : List String) : a ∈ jsSetList l ↔ a ∈ l := by
  rw [jsSetList, mem_jsSetFold]
  simp

/-! Field-preservation lemmas for the world operations. -/

@[simp] theorem abortCurrent_combinations (w : World) :
    (abortCurrent w).combinations = w.combinations := by
  unfold abortCurrent; split <;> rfl

@[simp] theorem abortCurrent_selectedColor (w : World) :
    (abortCurrent w).selectedColor = w.selectedColor := by
  unfold abortCurrent; split <;> rfl

@[simp] theorem abortCurrent_selectedSize (w : World) :
    (abortCurrent w).selectedSize = w.selectedSize := by
  unfold abortCurrent; split <;> rfl

@[simp] theorem abortCurrent_currentProductUrl (w : World) :
    (abortCurrent w).currentProductUrl = w.currentProductUrl := by
  unfold abortCurrent; split <;> rfl

@[simp] theorem abortCurrent_colorInputs (w : World) :
    (abortCurrent w).colorInputs = w.colorInputs := by
  unfold abortCurrent; split <;> rfl

@[simp] theorem abortCurrent_sizeInputs (w : World) :
    (abortCurrent w).sizeInputs = w.sizeInputs := by
  unfold abortCurrent; split <;> rfl

@[simp] theorem abortCurrent_origin (w : World) : (abortCurrent w).origin = w.origin := by
  unfold abortCurrent; split <;> rfl

@[simp] theorem abortCurrent_locationHref (w : World) :
    (abortCurrent w).locationHref = w.locationHref := by
  unfold abortCurrent; split <;> rfl

@[simp] theorem abortCurrent_nextCtrl (w : World) : (abortCurrent w).nextCtrl = w.nextCtrl := by
  unfold abortCurrent; split <;> rfl

@[simp] theorem abortCurrent_pending (w : World) : (abortCurrent w).pending = w.pending := by
  unfold abortCurrent; split <;> rfl

@[simp] theorem abortCurrent_effects (w : World) : (abortCurrent w).effects = w.effects := by
  unfold abortCurrent; split <;> rfl

@[simp] theorem fetchAndMorphProduct_combinations (w : World) (u : String) (d : Bool)
    (v : String) : (fetchAndMorphProduct w u d v).combinations = w.combinations := by
  simp [fetchAndMorphProduct]

@[simp] theorem fetchAndMorphProduct_selectedColor (w : World) (u : String) (d : Bool)
    (v : String) : (fetchAndMorphProduct w u d v).selectedColor = w.selectedColor := by
  simp [fetchAndMorphProduct]

@[simp] theorem fetchAndMorphProduct_selectedSize (w : World) (u : String) (d : Bool)
    (v : String) : (fetchAndMorphProduct w u d v).selectedSize = w.selectedSize := by
  simp [fetchAndMorphProduct]

@[simp] theorem fetchAndMorphProduct_currentProductUrl (w : World) (u : String) (d : Bool)
    (v : String) : (fetchAndMorphProduct w u d v).currentProductUrl = w.currentProductUrl := by
  simp [fetchAndMorphProduct]

@[simp] theorem fetchAndMorphProduct_colorInputs (w : World) (u : String) (d : Bool)
    (v : String) : (fetchAndMorphProduct w u d v).colorInputs = w.colorInputs := by
  simp [fetchAndMorphProduct]

@[simp] theorem fetchAndMorphProduct_sizeInputs (w : World) (u : String) (d : Bool)
    (v : String) : (fetchAndMorphProduct w u d v).sizeInputs = w.sizeInputs := by
  simp [fetchAndMorphProduct]

@[simp] theorem fetchAndMorphProduct_origin (w : World) (u : String) (d : Bool) (v : String) :
    (fetchAndMorphProduct w u d v).origin = w.origin := by
  simp [fetchAndMorphProduct]

@[simp] theorem fetchAndMorphProduct_locationHref (w : World) (u : String) (d : Bool)
    (v : String) : (fetchAndMorphProduct w u d v).locationHref = w.locationHref := by
  simp [fetchAndMorphProduct]

@[simp] theorem fetchAndMorphProduct_nextCtrl (w : World) (u : String) (d : Bool) (v : String) :
    (fetchAndMorphProduct w u d v).nextCtrl = w.nextCtrl + 1 := by
  simp [fetchAndMorphProduct]

@[simp] theorem fetchAndMorphProduct_activeCtrl (w : World) (u : String) (d : Bool) (v : String) :
    (fetchAndMorphProduct w u d v).activeCtrl = some w.nextCtrl := by
  simp [fetchAndMorphProduct]

@[simp] theorem fetchAndMorphProduct_effects (w : World) (u : String) (d : Bool) (v : String) :
    (fetchAndMorphProduct w u d v).effects = w.effects ++ [.fetchStart w.nextCtrl u] := by
  simp [fetchAndMorphProduct]

@[simp] theorem updateSelectedOptionW_combinations (w : World) (t v : String) :
    (updateSelectedOptionW w t v).combinations = w.combinations := by
  unfold updateSelectedOptionW; split <;> [rfl; split <;> rfl]

@[simp] theorem updateSelectedOptionW_selectedColor (w : World) (t v : String) :
    (updateSelectedOptionW w t v).selectedColor = w.selectedColor := by
  unfold updateSelectedOptionW; split <;> [rfl; split <;> rfl]

@[simp] theorem updateSelectedOptionW_selectedSize (w : World) (t v : String) :
    (updateSelectedOptionW w t v).selectedSize = w.selectedSize := by
  unfold updateSelectedOptionW; split <;> [rfl; split <;> rfl]

@[simp] theorem updateSelectedOptionW_currentProductUrl (w : World) (t v : String) :
    (updateSelectedOptionW w t v).currentProductUrl = w.currentProductUrl := by
  unfold updateSelectedOptionW; split <;> [rfl; split <;> rfl]

@[simp] theorem updateSelectedOptionW_origin (w : World) (t v : String) :
    (updateSelectedOptionW w t v).origin = w.origin := by
  unfold updateSelectedOptionW; split <;> [rfl; split <;> rfl]

@[simp] theorem updateSelectedOptionW_locationHref (w : World) (t v : String) :
    (updateSelectedOptionW w t v).locationHref = w.locationHref := by
  unfold updateSelectedOptionW; split <;> [rfl; split <;> rfl]

@[simp] theorem updateSelectedOptionW_nextCtrl (w : World) (t v : String) :
    (updateSelectedOptionW w t v).nextCtrl = w.nextCtrl := by
  unfold updateSelectedOptionW; split <;> [rfl; split <;> rfl]

@[simp] theorem updateSelectedOptionW_activeCtrl (w : World) (t v : String) :
    (updateSelectedOptionW w t v).activeCtrl = w.activeCtrl := by
  unfold updateSelectedOptionW; split <;> [rfl; split <;> rfl]

@[simp] theorem updateSelectedOptionW_abortedCtrls (w : World) (t v : String) :
    (updateSelectedOptionW w t v).abortedCtrls = w.abortedCtrls := by
  unfold updateSelectedOptionW; split <;> [rfl; split <;> rfl]

@[simp] theorem updateSelectedOptionW_pending (w : World) (t v : String) :
    (updateSelectedOptionW w t v).pending = w.pending := by
  unfold updateSelectedOptionW; split <;> [rfl; split <;> rfl]

@[simp] theorem updateSelectedOptionW_effects (w : World) (t v : String) :
    (updateSelectedOptionW w t v).effects = w.effects ++ [.pillUpdate v] := by
  unfold updateSelectedOptionW; split <;> [rfl; split <;> rfl]

@[simp] theorem updateFilteringW_combinations (w : World) :
    (updateFilteringW w).combinations = w.combinations := rfl

@[simp] theorem updateFilteringW_selectedColor (w : World) :
    (updateFilteringW w).selectedColor = w.selectedColor := rfl

@[simp] theorem updateFilteringW_selectedSize (w : World) :
    (updateFilteringW w).selectedSize = w.selectedSize := rfl

@[simp] theorem updateFilteringW_currentProductUrl (w : World) :
    (updateFilteringW w).currentProductUrl = w.currentProductUrl := rfl

@[simp] theorem updateFilteringW_origin (w : World) : (updateFilteringW w).origin = w.origin := rfl

@[simp] theorem updateFilteringW_locationHref (w : World) :
    (updateFilteringW w).locationHref = w.locationHref := rfl

@[simp] theorem updateFilteringW_nextCtrl (w : World) :
    (updateFilteringW w).nextCtrl = w.nextCtrl := rfl

@[simp] theorem updateFilteringW_activeCtrl (w : World) :
    (updateFilteringW w).activeCtrl = w.activeCtrl := rfl

@[simp] theorem updateFilteringW_abortedCtrls (w : World) :
    (updateFilteringW w).abortedCtrls = w.abortedCtrls := rfl

@[simp] theorem updateFilteringW_pending (w : World) :
    (updateFilteringW w).pending = w.pending := rfl

@[simp] theorem updateFilteringW_effects (w : World) :
    (updateFilteringW w).effects = w.effects ++ [.filterUpdate] := rfl

@[simp] theorem applySelection_combinations (w : World) (t v : String) :
    (applySelection w t v).combinations = w.combinations := by
  unfold applySelection; split <;> [rfl; split <;> rfl]

@[simp] theorem applySelection_currentProductUrl (w : World) (t v : String) :
    (applySelection w t v).currentProductUrl = w.currentProductUrl := by
  unfold applySelection; split <;> [rfl; split <;> rfl]

@[simp] theorem applySelection_colorInputs (w : World) (t v : String) :
    (applySelection w t v).colorInputs = w.colorInputs := by
  unfold applySelection; split <;> [rfl; split <;> rfl]

@[simp] theorem applySelection_sizeInputs (w : World) (t v : String) :
    (applySelection w t v).sizeInputs = w.sizeInputs := by
  unfold applySelection; split <;> [rfl; split <;> rfl]

@[simp] theorem applySelection_origin (w : World) (t v : String) :
    (applySelection w t v).origin = w.origin := by
  unfold applySelection; split <;> [rfl; split <;> rfl]

@[simp] theorem applySelection_locationHref (w : World) (t v : String) :
    (applySelection w t v).locationHref = w.locationHref := by
  unfold applySelection; split <;> [rfl; split <;> rfl]

@[simp] theorem applySelection_nextCtrl (w : World) (t v : String) :
    (applySelection w t v).nextCtrl = w.nextCtrl := by
  unfold applySelection; split <;> [rfl; split <;> rfl]

@[simp] theorem applySelection_activeCtrl (w : World) (t v : String) :
    (applySelection w t v).activeCtrl = w.activeCtrl := by
  unfold applySelection; split <;> [rfl; split <;> rfl]

@[simp] theorem applySelection_abortedCtrls (w : World) (t v : String) :
    (applySelection w t v).abortedCtrls = w.abortedCtrls := by
  unfold applySelection; split <;> [rfl; split <;> rfl]

@[simp] theorem applySelection_pending (w : World) (t v : String) :
    (applySelection w t v).pending = w.pending := by
  unfold applySelection; split <;> [rfl; split <;> rfl]

@[simp] theorem applySelection_effects (w : World) (t v : String) :
    (applySelection w t v).effects = w.effects := by
  unfold applySelection; split <;> [rfl; split <;> rfl]

@[simp] theorem applySelection_color_selectedColor (w : World) (v : String) :
    (applySelection w "color" v).selectedColor = some v := rfl

@[simp] theorem applySelection_color_selectedSize (w : World) (v : String) :
    (applySelection w "color" v).selectedSize = w.selectedSize := rfl

@[simp] theorem applySelection_size_selectedColor (w : World) (v : String) :
    (applySelection w "size" v).selectedColor = w.selectedColor := rfl

@[simp] theorem applySelection_size_selectedSize (w : World) (v : String) :
    (applySelection w "size" v).selectedSize = some v := rfl

@[simp] theorem navigateToMatchingProduct_combinations (w : World) :
    (navigateToMatchingProduct w).combinations = w.combinations := by
  unfold navigateToMatchingProduct
  split
  · split
    · rfl
    · dsimp only
      split <;> simp
  · rfl

@[simp] theorem navigateToMatchingProduct_selectedColor (w : World) :
    (navigateToMatchingProduct w).selectedColor = w.selectedColor := by
  unfold navigateToMatchingProduct
  split
  · split
    · rfl
    · dsimp only
      split <;> simp
  · rfl

@[simp] theorem navigateToMatchingProduct_selectedSize (w : World) :
    (navigateToMatchingProduct w).selectedSize = w.selectedSize := by
  unfold navigateToMatchingProduct
  split
  · split
    · rfl
    · dsimp only
      split <;> simp
  · rfl

@[simp] theorem navigateToMatchingProduct_currentProductUrl (w : World) :
    (navigateToMatchingProduct w).currentProductUrl = w.currentProductUrl := by
  unfold navigateToMatchingProduct
  split
  · split
    · rfl
    · dsimp only
      split <;> simp
  · rfl

@[simp] theorem navigateToMatchingProduct_colorInputs (w : World) :
    (navigateToMatchingProduct w).colorInputs = w.colorInputs := by
  unfold navigateToMatchingProduct
  split
  · split
    · rfl
    · dsimp only
      split <;> simp
  · rfl

@[simp] theorem navigateToMatchingProduct_sizeInputs (w : World) :
    (navigateToMatchingProduct w).sizeInputs = w.sizeInputs := by
  unfold navigateToMatchingProduct
  split
  · split
    · rfl
    · dsimp only
      split <;> simp
  · rfl

/-- Every branch of `navigateToMatchingProduct` only appends to the log. -/
theorem navigateToMatchingProduct_effects_prefix (w : World) :
    w.effects <+: (navigateToMatchingProduct w).effects := by
  unfold navigateToMatchingProduct
  split
  · split
    · exact List.prefix_refl _
    · dsimp only
      split
      · rw [fetchAndMorphProduct_effects]
        exact (List.prefix_append _ _).trans (List.prefix_append _ _)
      · rw [fetchAndMorphProduct_effects]
        exact List.prefix_append _ _
  · exact List.prefix_refl _

/-- A size with an available combination (compatible with the selected
color) is always a member of `#getAvailableSizes`: the displayed
unavailability mark implies membership failure in the disable test. -/
theorem size_avail_of_hasAvailable (cs : List Combination) (selectedColor : Option String)
    (sizeValue : String)
    (h : (cs.any fun c =>
        c.size != "" && (jsTrim c.size == sizeValue) && c.available &&
        (!truthy selectedColor ||
          (c.color != "" && (jsTrim c.color == jsTrim (selectedColor.getD ""))))) = true) :
    ((getAvailableSizes cs selectedColor).any fun v => jsTrim v == sizeValue) = true := by
  rw [List.any_eq_true] at h
  obtain ⟨c, hc, hp⟩ := h
  simp only [Bool.and_eq_true] at hp
  obtain ⟨⟨⟨h1, h2⟩, h3⟩, h4⟩ := hp
  rw [List.any_eq_true]
  refine ⟨jsTrim c.size, ?_, by rw [jsTrim_idem]; exact h2⟩
  unfold getAvailableSizes
  by_cases hcol : truthy selectedColor = true
  · rw [if_pos hcol, mem_jsSetList]
    have h4' : (c.color != "" && (jsTrim c.color == jsTrim (selectedColor.getD ""))) = true := by
      simp only [Bool.or_eq_true] at h4
      rcases h4 with h | h
      · rw [hcol] at h; simp at h
      · exact h
    exact List.mem_map.mpr
      ⟨c.size,
        List.mem_filter.mpr ⟨List.mem_map.mpr ⟨c, List.mem_filter.mpr ⟨hc, h4'⟩, rfl⟩, h1⟩, rfl⟩
  · rw [if_neg hcol, mem_jsSetList]
    exact List.mem_map.mpr ⟨c.size, List.mem_filter.mpr ⟨List.mem_map.mpr ⟨c, hc, rfl⟩, h1⟩, rfl⟩

/-- C9: after the filtering update, an option input whose (trimmed) value is
the currently selected value of its dimension is never disabled, even when
it is marked unavailable; and a disabled input is always both non-selected
and marked unavailable (`data-option-available="false"`). -/
theorem c9_selected_never_disabled :
    ∀ (cs : List Combination) (selectedColor selectedSize : Option String)
      (inputs : List OptionInput),
      (∀ inp ∈ applyColorFiltering cs selectedColor selectedSize inputs,
        ((truthy selectedColor = true ∧ jsTrim (selectedColor.getD "") = jsTrim inp.value) →
          inp.disabled = false) ∧
        (inp.disabled = true →
          inp.dataOptionAvailable = false ∧
          ¬(truthy selectedColor = true ∧ jsTrim (selectedColor.getD "") = jsTrim inp.value))) ∧
      (∀ inp ∈ applySizeFiltering cs selectedColor selectedSize inputs,
        ((truthy selectedSize = true ∧ jsTrim (selectedSize.getD "") = jsTrim inp.value) →
          inp.disabled = false) ∧
        (inp.disabled = true →
          inp.dataOptionAvailable = false ∧
          ¬(truthy selectedSize = true ∧ jsTrim (selectedSize.getD "") = jsTrim inp.value))) := by
  intro cs selectedColor selectedSize inputs
  constructor
  · intro inp hinp
    unfold applyColorFiltering at hinp
    rw [List.mem_map] at hinp
    obtain ⟨src, hsrc, rfl⟩ := hinp
    dsimp only
    constructor
    · rintro ⟨h1, h2⟩
      have hsel : (truthy selectedColor &&
          (jsTrim (selectedColor.getD "") == jsTrim src.value)) = true := by
        rw [h1, h2]
        simp
      rw [hsel]
      simp
    · intro hdis
      rw [Bool.and_eq_true] at hdis
      obtain ⟨hca, hsel⟩ := hdis
      refine ⟨by rwa [Bool.not_eq_true'] at hca, ?_⟩
      rintro ⟨h1, h2⟩
      rw [h1, h2] at hsel
      simp at hsel
  · intro inp hinp
    unfold applySizeFiltering at hinp
    rw [List.mem_map] at hinp
    obtain ⟨src, hsrc, rfl⟩ := hinp
    dsimp only
    constructor
    · rintro ⟨h1, h2⟩
      have hsel : (truthy selectedSize &&
          (jsTrim (selectedSize.getD "") == jsTrim src.value)) = true := by
        rw [h1, h2]
        simp
      rw [hsel]
      simp
    · intro hdis
      rw [Bool.and_eq_true] at hdis
      obtain ⟨hia, hsel⟩ := hdis
      constructor
      · by_contra hne
        have hha : (cs.any fun c =>
            c.size != "" && (jsTrim c.size == jsTrim src.value) && c.available &&
            (!truthy selectedColor ||
              (c.color != "" && (jsTrim c.color == jsTrim (selectedColor.getD ""))))) = true := by
          revert hne
          cases hb : (cs.any fun c =>
              c.size != "" && (jsTrim c.size == jsTrim src.value) && c.available &&
              (!truthy selectedColor ||
                (c.color != "" && (jsTrim c.color == jsTrim (selectedColor.getD "")))))
          · intro hne; exact absurd rfl hne
          · intro _; rfl
        have := size_avail_of_hasAvailable cs selectedColor (jsTrim src.value) hha
        rw [this] at hia
        simp at hia
      · rintro ⟨h1, h2⟩
        rw [h1, h2] at hsel
        simp at hsel

/-- The picker-observable part of a world: the action log (morphs, events,
fetches, history writes), the selection state, the inputs and the URL. -/
def sameObservable (a b : World) : Prop :=
  a.effects = b.effects ∧ a.selectedColor = b.selectedColor ∧ a.selectedSize = b.selectedSize ∧
  a.colorInputs = b.colorInputs ∧ a.sizeInputs = b.sizeInputs ∧
  a.currentProductUrl = b.currentProductUrl ∧ a.locationHref = b.locationHref

/-- Settling a fetch that was aborted, or that failed at the network level,
changes nothing observable: the `catch` handler swallows both. -/
theorem deliverResponse_preserves (w : World) (ctrl : Nat) (r : FetchResult)
    (h : ctrl ∈ w.abortedCtrls ∨ r = FetchResult.networkError) :
    sameObservable (deliverResponse w ctrl r) w := by
  unfold deliverResponse
  cases hf : w.pending.find? fun p => p.ctrl == ctrl
  · exact ⟨rfl, rfl, rfl, rfl, rfl, rfl, rfl⟩
  · dsimp only
    by_cases hc : w.abortedCtrls.contains ctrl = true
    · rw [if_pos hc]
      exact ⟨rfl, rfl, rfl, rfl, rfl, rfl, rfl⟩
    · rw [if_neg hc]
      rcases h with hmem | hr
      · exact absurd (List.elem_eq_true_of_mem hmem) hc
      · subst hr
        exact ⟨rfl, rfl, rfl, rfl, rfl, rfl, rfl⟩

@[simp] theorem fetchAndMorphProduct_abortedCtrls (w : World) (u : String) (d : Bool)
    (v : String) : (fetchAndMorphProduct w u d v).abortedCtrls = (abortCurrent w).abortedCtrls := by
  simp [fetchAndMorphProduct]

/-- Aborting with an active controller records it as aborted. -/
theorem abortCurrent_abortedCtrls_of_active (w : World) (c : Nat) (h : w.activeCtrl = some c) :
    (abortCurrent w).abortedCtrls = w.abortedCtrls ++ [c] := by
  unfold abortCurrent
  rw [h]

/-- C3: starting a second navigation marks the first navigation's controller
aborted (and the instance again holds exactly one active controller), so the
first request's response — whenever and however it settles — changes nothing
observable: no morph, no Updated event, no state or URL change. -/
theorem c3_second_navigation_supersedes :
    ∀ (w : World) (u1 : String) (d1 : Bool) (v1 : String) (u2 : String) (d2 : Bool) (v2 : String)
      (r : FetchResult),
      let w2 := fetchAndMorphProduct (fetchAndMorphProduct w u1 d1 v1) u2 d2 v2
      sameObservable (deliverResponse w2 w.nextCtrl r) w2 ∧
      w.nextCtrl ∈ w2.abortedCtrls ∧
      w2.activeCtrl = some (w.nextCtrl + 1) := by
  intro w u1 d1 v1 u2 d2 v2 r w2
  have habort : w2.abortedCtrls = (fetchAndMorphProduct w u1 d1 v1).abortedCtrls ++ [w.nextCtrl] := by
    show (fetchAndMorphProduct _ _ _ _).abortedCtrls = _
    rw [fetchAndMorphProduct_abortedCtrls,
      abortCurrent_abortedCtrls_of_active _ _ (fetchAndMorphProduct_activeCtrl w u1 d1 v1)]
  have hmem : w.nextCtrl ∈ w2.abortedCtrls := by
    rw [habort]
    exact List.mem_append_right _ (List.mem_singleton_self _)
  refine ⟨deliverResponse_preserves w2 w.nextCtrl r (Or.inl hmem), hmem, ?_⟩
  show (fetchAndMorphProduct _ _ _ _).activeCtrl = _
  rw [fetchAndMorphProduct_activeCtrl, fetchAndMorphProduct_nextCtrl]

/-- C10: when the URL carries no `variant` parameter, or its value matches no
parsed combination's variant id (after trimming), syncing from the URL is a
complete no-op: the whole world — selections, current product URL, checked
states and filtering attributes — is exactly unchanged. -/
theorem c10_sync_from_url_noop :
    ∀ w : World,
      syncFromUrl w none = w ∧
      ∀ vp : String, (∀ c ∈ w.combinations, jsTrim c.variantId ≠ jsTrim vp) →
        syncFromUrl w (some vp) = w := by
  intro w
  refine ⟨rfl, ?_⟩
  intro vp hvp
  have hfind : (w.combinations.find? fun c =>
      c.variantId != "" && (jsTrim c.variantId == jsTrim vp)) = none := by
    rw [List.find?_eq_none]
    intro c hc hpred
    rw [Bool.and_eq_true] at hpred
    exact hvp c hc (by simpa using hpred.2)
  show syncFromUrl w (some vp) = w
  simp only [syncFromUrl]
  by_cases hv : (vp == "") = true
  · rw [if_pos hv]
  · rw [if_neg hv, hfind]

/-- C10 witness: a concrete picker with one combination `V1` is untouched by
a sync against the parameter `ZZ` and by a sync with no parameter. -/
theorem c10_sync_from_url_noop_witness :
    syncFromUrl
        ⟨[⟨"P1", "V1", "Red", "S", "/p1", true, true⟩], some "Red", none, some "/p1",
          [⟨"Red", true, false, true, false, false⟩], [⟨"S", false, false, true, false, false⟩],
          "https://shop.example", "https://shop.example/p1", 0, none, [], [], []⟩
        (some "ZZ") =
      ⟨[⟨"P1", "V1", "Red", "S", "/p1", true, true⟩], some "Red", none, some "/p1",
        [⟨"Red", true, false, true, false, false⟩], [⟨"S", false, false, true, false, false⟩],
        "https://shop.example", "https://shop.example/p1", 0, none, [], [], []⟩ ∧
    syncFromUrl
        ⟨[⟨"P1", "V1", "Red", "S", "/p1", true, true⟩], some "Red", none, some "/p1",
          [⟨"Red", true, false, true, false, false⟩], [⟨"S", false, false, true, false, false⟩],
          "https://shop.example", "https://shop.example/p1", 0, none, [], [], []⟩
        none =
      ⟨[⟨"P1", "V1", "Red", "S", "/p1", true, true⟩], some "Red", none, some "/p1",
        [⟨"Red", true, false, true, false, false⟩], [⟨"S", false, false, true, false, false⟩],
        "https://shop.example", "https://shop.example/p1", 0, none, [], [], []⟩ := by
  refine ⟨(c10_sync_from_url_noop _).2 "ZZ" ?_, (c10_sync_from_url_noop _).1⟩
  decide

/-- C4 counterexample: the URL/history commit is NOT gated on a successful
response.  In a concrete world the matching navigation is started, the fetch
then fails at the network level, yet the location has already moved to the
target URL and the history write is in the log (while indeed no morph and no
Updated event happened).  This refutes the claim that on a failed fetch "the
URL/history state is not changed — the URL is committed only after a
successful response". -/
theorem c4_url_committed_despite_failure :
    (deliverResponse
        (navigateToMatchingProduct
          ⟨[⟨"P2", "V2", "Blue", "S", "/p2", true, false⟩], some "Blue", some "S", some "/p1",
            [], [], "https://s", "https://s/p1", 0, none, [], [], []⟩)
        0 FetchResult.networkError).locationHref ≠ "https://s/p1" ∧
    (deliverResponse
        (navigateToMatchingProduct
          ⟨[⟨"P2", "V2", "Blue", "S", "/p2", true, false⟩], some "Blue", some "S", some "/p1",
            [], [], "https://s", "https://s/p1", 0, none, [], [], []⟩)
        0 FetchResult.networkError).effects =
      [Effect.fetchStart 0 "/p2?variant=V2",
       Effect.historyReplace "https://s/p2?variant=V2"] := by
  decide

/-- C4 (amended): a non-cancellation fetch failure is atomic — nothing
observable changes (no morph, no Updated event, selections, inputs and URL
untouched by the settling itself); but the URL/history update is issued when
the navigation starts, whenever the resolved URL differs from the current
location (and skipped when it does not differ), independent of the fetch's
eventual outcome. -/
theorem c4_failure_atomic_amended :
    ∀ (w : World) (ctrl : Nat) (mc : Combination),
      sameObservable (deliverResponse w ctrl FetchResult.networkError) w ∧
      (truthy w.selectedColor = true → truthy w.selectedSize = true →
        findMatchingCombinationTrim w.combinations (w.selectedColor.getD "")
            (w.selectedSize.getD "") = some mc →
        ((w.origin ++ (mc.productUrl ++ "?variant=" ++ mc.variantId) ≠ w.locationHref →
          (navigateToMatchingProduct w).locationHref =
            w.origin ++ (mc.productUrl ++ "?variant=" ++ mc.variantId) ∧
          (navigateToMatchingProduct w).effects =
            w.effects ++
              [Effect.fetchStart w.nextCtrl (mc.productUrl ++ "?variant=" ++ mc.variantId),
               Effect.historyReplace
                 (w.origin ++ (mc.productUrl ++ "?variant=" ++ mc.variantId))]) ∧
         (w.origin ++ (mc.productUrl ++ "?variant=" ++ mc.variantId) = w.locationHref →
          (navigateToMatchingProduct w).locationHref = w.locationHref ∧
          (navigateToMatchingProduct w).effects =
            w.effects ++
              [Effect.fetchStart w.nextCtrl (mc.productUrl ++ "?variant=" ++ mc.variantId)]))) := by
  intro w ctrl mc
  refine ⟨deliverResponse_preserves w ctrl _ (Or.inr rfl), ?_⟩
  intro hc hs hfind
  have hguard : (truthy w.selectedColor && truthy w.selectedSize) = true := by
    rw [hc, hs]
    rfl
  unfold navigateToMatchingProduct
  rw [if_pos hguard, hfind]
  dsimp only
  simp only [fetchAndMorphProduct_origin, fetchAndMorphProduct_locationHref]
  constructor
  · intro hne
    have hb : ((w.origin ++ (mc.productUrl ++ "?variant=" ++ mc.variantId)) !=
        w.locationHref) = true := bne_iff_ne.mpr hne
    rw [if_pos hb]
    refine ⟨rfl, ?_⟩
    simp [List.append_assoc]
  · intro heq
    have hb : ¬(((w.origin ++ (mc.productUrl ++ "?variant=" ++ mc.variantId)) !=
        w.locationHref) = true) := by
      simp [heq]
    rw [if_neg hb]
    exact ⟨by simp, by simp⟩

/-- C4 witness: the amended theorem applied to the concrete failing world —
the settling of the failed fetch is observably a no-op, while the location
was already moved at navigation time. -/
theorem c4_failure_atomic_amended_witness :
    sameObservable
        (deliverResponse
          ⟨[⟨"P2", "V2", "Blue", "S", "/p2", true, false⟩], some "Blue", some "S", some "/p1",
            [], [], "https://s", "https://s/p1", 0, none, [], [], []⟩
          0 FetchResult.networkError)
        ⟨[⟨"P2", "V2", "Blue", "S", "/p2", true, false⟩], some "Blue", some "S", some "/p1",
          [], [], "https://s", "https://s/p1", 0, none, [], [], []⟩ ∧
    (navigateToMatchingProduct
        ⟨[⟨"P2", "V2", "Blue", "S", "/p2", true, false⟩], some "Blue", some "S", some "/p1",
          [], [], "https://s", "https://s/p1", 0, none, [], [], []⟩).locationHref =
      "https://s" ++ ("/p2" ++ "?variant=" ++ "V2") := by
  have h := c4_failure_atomic_amended
    ⟨[⟨"P2", "V2", "Blue", "S", "/p2", true, false⟩], some "Blue", some "S", some "/p1",
      [], [], "https://s", "https://s/p1", 0, none, [], [], []⟩
    0 ⟨"P2", "V2", "Blue", "S", "/p2", true, false⟩
  exact ⟨h.1, ((h.2 (by decide) (by decide) (by decide)).1 (by decide)).1⟩

/-- C5 counterexample: on the navigation path the lookup is case-sensitive —
two selections differing only in letter case resolve differently (`"red"`
finds the combination, `"Red"` finds none), while the selection-change path
resolves both.  This refutes "case-insensitive on every code path". -/
theorem c5_navigate_find_case_sensitive :
    findMatchingCombinationTrim [⟨"P", "V", "red", "s", "u", true, false⟩] "red" "s" =
      some ⟨"P", "V", "red", "s", "u", true, false⟩ ∧
    findMatchingCombinationTrim [⟨"P", "V", "red", "s", "u", true, false⟩] "Red" "s" = none ∧
    findMatchingCombinationLower [⟨"P", "V", "red", "s", "u", true, false⟩] "Red" "s" =
      some ⟨"P", "V", "red", "s", "u", true, false⟩ := by
  decide

/-- C5 (amended): matching is whitespace-trim-insensitive on both resolution
paths; the selection-change path (`findMatchingCombinationLower`) is
additionally case-insensitive — it depends only on the lowercased trimmed
values — while the navigation path (`findMatchingCombinationTrim`) depends
only on the trimmed values and compares case-sensitively. -/
theorem c5_find_normalization_amended :
    ∀ (cs : List Combination) (a a' b b' : String),
      (jsToLower (jsTrim a) = jsToLower (jsTrim a') →
        jsToLower (jsTrim b) = jsToLower (jsTrim b') →
        findMatchingCombinationLower cs a b = findMatchingCombinationLower cs a' b') ∧
      (jsTrim a = jsTrim a' → jsTrim b = jsTrim b' →
        findMatchingCombinationTrim cs a b = findMatchingCombinationTrim cs a' b') := by
  intro cs a a' b b'
  constructor
  · intro h1 h2
    unfold findMatchingCombinationLower
    rw [h1, h2]
  · intro h1 h2
    unfold findMatchingCombinationTrim
    rw [h1, h2]

/-- C5 witness: the amended theorem at concrete inputs — `" Red "` and
`"red"` agree after trim+lowercase, so the selection-change lookup treats
them identically; `" Blue "` and `"Blue"` agree after trim, so the
navigation lookup treats them identically. -/
theorem c5_find_normalization_amended_witness :
    findMatchingCombinationLower [⟨"P", "V", "red", "s", "u", true, false⟩] " Red " "s" =
      findMatchingCombinationLower [⟨"P", "V", "red", "s", "u", true, false⟩] "red" "s" ∧
    findMatchingCombinationTrim [⟨"P", "V", "Blue", "s", "u", true, false⟩] " Blue " "s" =
      findMatchingCombinationTrim [⟨"P", "V", "Blue", "s", "u", true, false⟩] "Blue" "s" := by
  exact
    ⟨(c5_find_normalization_amended [⟨"P", "V", "red", "s", "u", true, false⟩]
        " Red " "red" "s" "s").1 (by decide) (by decide),
     (c5_find_normalization_amended [⟨"P", "V", "Blue", "s", "u", true, false⟩]
        " Blue " "Blue" "s" "s").2 (by decide) (by decide)⟩

/-- The selection handler never rebuilds the combination set. -/
theorem handleSelectionChange_combinations (w : World) (t v : String) :
    (handleSelectionChange w t v).combinations = w.combinations := by
  unfold handleSelectionChange
  dsimp only
  split
  · split
    · simp
    · simp
  · simp

/-- The selection handler's final selected color is the one set by the
initial selection update. -/
theorem handleSelectionChange_selectedColor (w : World) (t v : String) :
    (handleSelectionChange w t v).selectedColor = (applySelection w t v).selectedColor := by
  unfold handleSelectionChange
  dsimp only
  split
  · split
    · simp
    · simp
  · simp

/-- The selection handler's final selected size is the one set by the
initial selection update. -/
theorem handleSelectionChange_selectedSize (w : World) (t v : String) :
    (handleSelectionChange w t v).selectedSize = (applySelection w t v).selectedSize := by
  unfold handleSelectionChange
  dsimp only
  split
  · split
    · simp
    · simp
  · simp

/-- C6: selecting color `a` then size `b` resolves to the same combination
as selecting size `b` then color `a` — for a valid pair (both values
non-empty and jointly matched by the lookup), both orders resolve to that
combination. -/
theorem c6_selection_order_independent :
    ∀ (w : World) (a b : String) (c : Combination),
      a ≠ "" → b ≠ "" →
      findMatchingCombinationLower w.combinations a b = some c →
      resolvedCombination (handleSelectionChange (handleSelectionChange w "color" a) "size" b) =
        some c ∧
      resolvedCombination (handleSelectionChange (handleSelectionChange w "size" b) "color" a) =
        some c := by
  intro w a b c ha hb hfind
  have hta : truthy (some a) = true := by simp [truthy, ha]
  have htb : truthy (some b) = true := by simp [truthy, hb]
  constructor
  · have hcombs :
        (handleSelectionChange (handleSelectionChange w "color" a) "size" b).combinations =
          w.combinations := by
      rw [handleSelectionChange_combinations, handleSelectionChange_combinations]
    have hcol :
        (handleSelectionChange (handleSelectionChange w "color" a) "size" b).selectedColor =
          some a := by
      rw [handleSelectionChange_selectedColor, applySelection_size_selectedColor,
        handleSelectionChange_selectedColor, applySelection_color_selectedColor]
    have hsz :
        (handleSelectionChange (handleSelectionChange w "color" a) "size" b).selectedSize =
          some b := by
      rw [handleSelectionChange_selectedSize, applySelection_size_selectedSize]
    unfold resolvedCombination
    rw [hcol, hsz, hcombs, hta, htb]
    simpa using hfind
  · have hcombs :
        (handleSelectionChange (handleSelectionChange w "size" b) "color" a).combinations =
          w.combinations := by
      rw [handleSelectionChange_combinations, handleSelectionChange_combinations]
    have hcol :
        (handleSelectionChange (handleSelectionChange w "size" b) "color" a).selectedColor =
          some a := by
      rw [handleSelectionChange_selectedColor, applySelection_color_selectedColor]
    have hsz :
        (handleSelectionChange (handleSelectionChange w "size" b) "color" a).selectedSize =
          some b := by
      rw [handleSelectionChange_selectedSize, applySelection_color_selectedSize,
        handleSelectionChange_selectedSize, applySelection_size_selectedSize]
    unfold resolvedCombination
    rw [hcol, hsz, hcombs, hta, htb]
    simpa using hfind

/-- C6 witness: both pick orders on a concrete picker resolve to the P2/V2
combination. -/
theorem c6_selection_order_independent_witness :
    resolvedCombination
        (handleSelectionChange
          (handleSelectionChange
            ⟨[⟨"P2", "V2", "Blue", "S", "/p2", true, false⟩], none, none, none, [], [],
              "https://s", "https://s/p1", 0, none, [], [], []⟩
            "color" "Blue")
          "size" "S") =
      some ⟨"P2", "V2", "Blue", "S", "/p2", true, false⟩ ∧
    resolvedCombination
        (handleSelectionChange
          (handleSelectionChange
            ⟨[⟨"P2", "V2", "Blue", "S", "/p2", true, false⟩], none, none, none, [], [],
              "https://s", "https://s/p1", 0, none, [], [], []⟩
            "size" "S")
          "color" "Blue") =
      some ⟨"P2", "V2", "Blue", "S", "/p2", true, false⟩ := by
  exact c6_selection_order_independent
    ⟨[⟨"P2", "V2", "Blue", "S", "/p2", true, false⟩], none, none, none, [], [],
      "https://s", "https://s/p1", 0, none, [], [], []⟩
    "Blue" "S" ⟨"P2", "V2", "Blue", "S", "/p2", true, false⟩
    (by decide) (by decide) (by decide)

/-- Shape of the selection handler's log: either the resolution succeeded
and the appended actions start with the Selected dispatch, or nothing beyond
the pill update and the filtering was appended. -/
theorem handleSelectionChange_effects_shape (w : World) (t v : String) :
    (∃ vid rest, (handleSelectionChange w t v).effects =
        w.effects ++ (Effect.dispatchSelected vid :: rest)) ∨
    (handleSelectionChange w t v).effects =
      w.effects ++ [Effect.pillUpdate v, Effect.filterUpdate] := by
  unfold handleSelectionChange
  dsimp only
  split
  · split
    · rename_i mc heq
      left
      have hX : (updateFilteringW (updateSelectedOptionW
          { applySelection w t v with
            effects :=
              (applySelection w t v).effects ++ [Effect.dispatchSelected mc.variantId] }
          t v)).effects =
          w.effects ++
            [Effect.dispatchSelected mc.variantId, Effect.pillUpdate v,
             Effect.filterUpdate] := by
        simp
      obtain ⟨r, hr⟩ := navigateToMatchingProduct_effects_prefix
        (updateFilteringW (updateSelectedOptionW
          { applySelection w t v with
            effects :=
              (applySelection w t v).effects ++ [Effect.dispatchSelected mc.variantId] }
          t v))
      refine ⟨mc.variantId, [Effect.pillUpdate v, Effect.filterUpdate] ++ r, ?_⟩
      rw [← hr, hX]
      simp
    · right
      simp
  · right
    simp

/-- C7: a fetch is only ever started by a pick whose log begins with the
Selected dispatch — the Selected event strictly precedes any network
activity, in both the dual picker's handler and the single combined-listing
picker's handler. -/
theorem c7_selected_before_fetch :
    ∀ (w : World) (t v : String) (ctrl : Nat) (u : String),
      w.effects = [] →
      (Effect.fetchStart ctrl u ∈ (handleSelectionChange w t v).effects →
        startsWithSelectedDispatch (handleSelectionChange w t v).effects = true) ∧
      ∀ purl vid : String,
        Effect.fetchStart ctrl u ∈ (handleProductSelection w purl vid).effects →
        startsWithSelectedDispatch (handleProductSelection w purl vid).effects = true := by
  intro w t v ctrl u heff
  constructor
  · intro hmem
    rcases handleSelectionChange_effects_shape w t v with ⟨vid, rest, hsh⟩ | hsh
    · rw [hsh, heff]
      rfl
    · rw [hsh, heff] at hmem
      simp at hmem
  · intro purl vid
    unfold handleProductSelection
    by_cases hp : (purl == "") = true
    · rw [if_pos hp]
      intro hmem
      rw [heff] at hmem
      simp at hmem
    · rw [if_neg hp]
      dsimp only
      intro hmem
      split <;> simp [heff, startsWithSelectedDispatch]

/-- C7 witness: on a concrete picker where the pick resolves (and a fetch is
indeed started), the log begins with the Selected dispatch. -/
theorem c7_selected_before_fetch_witness :
    startsWithSelectedDispatch
        (handleSelectionChange
          ⟨[⟨"P", "V", "Red", "S", "/p", true, false⟩], some "Red", none, some "/x", [], [],
            "https://s", "https://s/x", 0, none, [], [], []⟩
          "size" "S").effects = true := by
  exact (c7_selected_before_fetch
    ⟨[⟨"P", "V", "Red", "S", "/p", true, false⟩], some "Red", none, some "/x", [], [],
      "https://s", "https://s/x", 0, none, [], [], []⟩
    "size" "S" 0 "/p?variant=V" rfl).1 (by decide)

/-- C8: a pick after which only one dimension is truthy, or after which both
are truthy but the lowercased lookup finds no combination, performs no
dispatch, no fetch and no history write: the appended actions are exactly
the pill update and the filtering, and controllers, pending requests, URL
and current-product URL are untouched. -/
theorem c8_no_fetch_without_resolution :
    ∀ (w : World) (t v : String),
      w.effects = [] →
      (¬(truthy (applySelection w t v).selectedColor = true ∧
          truthy (applySelection w t v).selectedSize = true) ∨
        findMatchingCombinationLower (applySelection w t v).combinations
            ((applySelection w t v).selectedColor.getD "")
            ((applySelection w t v).selectedSize.getD "") = none) →
      (handleSelectionChange w t v).effects = [Effect.pillUpdate v, Effect.filterUpdate] ∧
      (handleSelectionChange w t v).locationHref = w.locationHref ∧
      (handleSelectionChange w t v).nextCtrl = w.nextCtrl ∧
      (handleSelectionChange w t v).activeCtrl = w.activeCtrl ∧
      (handleSelectionChange w t v).abortedCtrls = w.abortedCtrls ∧
      (handleSelectionChange w t v).pending = w.pending ∧
      (handleSelectionChange w t v).currentProductUrl = w.currentProductUrl := by
  intro w t v heff hres
  have hbranch : handleSelectionChange w t v =
      updateFilteringW (updateSelectedOptionW (applySelection w t v) t v) := by
    unfold handleSelectionChange
    dsimp only
    rcases hres with hng | hnone
    · have hg : ¬((truthy (applySelection w t v).selectedColor &&
          truthy (applySelection w t v).selectedSize) = true) := by
        rw [Bool.and_eq_true]
        exact hng
      rw [if_neg hg]
    · by_cases hg : (truthy (applySelection w t v).selectedColor &&
          truthy (applySelection w t v).selectedSize) = true
      · rw [if_pos hg, hnone]
      · rw [if_neg hg]
  rw [hbranch]
  refine ⟨?_, by simp, by simp, by simp, by simp, by simp, by simp⟩
  simp [heff]

/-- C8 witness: a pick of color Red with no size selected appends exactly
the pill update and the filtering, and touches nothing else. -/
theorem c8_no_fetch_without_resolution_witness :
    (handleSelectionChange
        ⟨[], none, none, none, [], [], "https://s", "https://s/x", 0, none, [], [], []⟩
        "color" "Red").effects = [Effect.pillUpdate "Red", Effect.filterUpdate] ∧
    (handleSelectionChange
        ⟨[], none, none, none, [], [], "https://s", "https://s/x", 0, none, [], [], []⟩
        "color" "Red").locationHref = "https://s/x" ∧
    (handleSelectionChange
        ⟨[], none, none, none, [], [], "https://s", "https://s/x", 0, none, [], [], []⟩
        "color" "Red").nextCtrl = 0 ∧
    (handleSelectionChange
        ⟨[], none, none, none, [], [], "https://s", "https://s/x", 0, none, [], [], []⟩
        "color" "Red").activeCtrl = none ∧
    (handleSelectionChange
        ⟨[], none, none, none, [], [], "https://s", "https://s/x", 0, none, [], [], []⟩
        "color" "Red").abortedCtrls = [] ∧
    (handleSelectionChange
        ⟨[], none, none, none, [], [], "https://s", "https://s/x", 0, none, [], [], []⟩
        "color" "Red").pending = [] ∧
    (handleSelectionChange
        ⟨[], none, none, none, [], [], "https://s", "https://s/x", 0, none, [], [], []⟩
        "color" "Red").currentProductUrl = none := by
  exact c8_no_fetch_without_resolution
    ⟨[], none, none, none, [], [], "https://s", "https://s/x", 0, none, [], [], []⟩
    "color" "Red" rfl (Or.inl (by decide))

/-- C9 witness: a concrete color input that is selected but unavailable
(no (Red, M) combination exists) stays enabled after filtering. -/
theorem c9_selected_never_disabled_witness :
    ((applyColorFiltering [⟨"P", "V", "Red", "S", "u", false, false⟩] (some "Red") (some "M")
        [⟨"Red", true, true, true, true, true⟩]).headD
      ⟨"", false, false, false, false, false⟩).disabled = false := by
  exact ((c9_selected_never_disabled [⟨"P", "V", "Red", "S", "u", false, false⟩] (some "Red")
      (some "M") [⟨"Red", true, true, true, true, true⟩]).1
    ((applyColorFiltering [⟨"P", "V", "Red", "S", "u", false, false⟩] (some "Red") (some "M")
        [⟨"Red", true, true, true, true, true⟩]).headD
      ⟨"", false, false, false, false, false⟩)
    (by decide)).1 (by decide)
